import Mathlib

/-!
Verification development for the air-overhead flight-tracker backend
(`app.py`, `auto_detection.py`, `vestaboard_api.py`).

The Python code is shallowly embedded: dictionaries holding optional JSON
fields become structures of `Option`-typed fields, the process-wide mutable
caches become explicit state records threaded through the functions, raising
an exception becomes returning `Except.error`, and every third-party HTTP
request is counted so that claims about "zero new network calls" can be
stated.  Timestamps are natural numbers (seconds).
-/

/-- Python truthiness of a string: `""` is falsy, everything else truthy. -/
def pyTruthy (s : String) : Bool := s != ""

/-- Python truthiness of an optional string value (`None` and `""` falsy). -/
def optTruthy : Option String → Bool
  | none => false
  | some s => pyTruthy s

/-- Cache lifetime in seconds (`CACHE_DURATION = 300` in `app.py`). -/
def CACHE_DURATION : Nat := 300

/-- Lookup in an association-list model of the process-wide `cache` dict:
the most recently inserted binding for a key shadows older ones. -/
def cacheLookup {α : Type} (c : List (String × α × Nat)) (key : String) :
    Option (α × Nat) :=
  (c.find? (fun e => e.1 == key)).map (fun e => e.2)

/-- Store `(value, now)` under `key`, overwriting any previous binding
(`cache[cache_key] = (data, now)` in `app.py`). -/
def cacheInsert {α : Type} (c : List (String × α × Nat)) (key : String)
    (v : α) (now : Nat) : List (String × α × Nat) :=
  (key, v, now) :: c

/-- Embedding of `get_cached_or_fetch` (`app.py` lines 337-349).  The global
`cache` dict is passed and returned explicitly; `fetch_function(...)` is the
already-applied fetch outcome (`Except.error` models the Python call raising).
The returned `Nat` counts how many times the fetch function was invoked
(0 or 1).  A fresh value is stored with the current timestamp
unconditionally, whatever it is. -/
def get_cached_or_fetch {α : Type} (c : List (String × α × Nat))
    (cache_key : String) (now : Nat) (fetch_function : Except Unit α) :
    Except Unit (α × List (String × α × Nat) × Nat) :=
  match cacheLookup c cache_key with
  | some (cached_data, timestamp) =>
    if now - timestamp < CACHE_DURATION then Except.ok (cached_data, c, 0)
    else
      match fetch_function with
      | Except.error e => Except.error e
      | Except.ok data => Except.ok (data, cacheInsert c cache_key data now, 1)
  | none =>
    match fetch_function with
    | Except.error e => Except.error e
    | Except.ok data => Except.ok (data, cacheInsert c cache_key data now, 1)

/-- Canonical aircraft-metadata record: the dict shape produced by
`fetch_aircraft_metadata_from_public_apis`, by
`fetch_aircraft_metadata_from_opensky_csv`, and consumed by the
`/api/aircraft/details` handler (fields read with `.get`, so each is
independently nullable; `age` only ever comes from the AeroDataBox payload). -/
structure AircraftMeta where
  manufacturer : Option String
  model : Option String
  registration : Option String
  operator : Option String
  serialNumber : Option String
  age : Option ℚ
  deriving DecidableEq, Repr

/-- Shape of the `"aircraft"` object in a hexdb response (`app.py` 160-168):
every field is read with `.get`, hence optional. -/
structure HexAircraft where
  manufacturer : Option String
  type : Option String
  registration : Option String
  operator : Option String
  serial_number : Option String
  deriving DecidableEq, Repr

/-- A 200-response body from hexdb; the parse branch fires only when the
`"aircraft"` key is present. -/
structure HexdbBody where
  aircraft : Option HexAircraft
  deriving DecidableEq, Repr

/-- Outcome of the hexdb HTTP attempt: a raised network error (caught by the
`except` in the loop), a non-200 status, or a 200 body. -/
inductive HexOutcome where
  | err : HexOutcome
  | non200 : HexOutcome
  | ok200 : HexdbBody → HexOutcome
  deriving DecidableEq, Repr

/-- One entry of the `acList` array in an adsbexchange response
(`app.py` 171-180). -/
structure AdsbAc where
  Icao : Option String
  Man : Option String
  Mdl : Option String
  Reg : Option String
  Op : Option String
  Sqk : Option String
  deriving DecidableEq, Repr

/-- Outcome of the adsbexchange HTTP attempt; `ok200 none` is a 200 body
without an `"acList"` key. -/
inductive AdsbOutcome where
  | err : AdsbOutcome
  | non200 : AdsbOutcome
  | ok200 : Option (List AdsbAc) → AdsbOutcome
  deriving DecidableEq, Repr

/-- Parse of the hexdb `"aircraft"` object (`app.py` 162-168). -/
def parse_hexdb (a : HexAircraft) : AircraftMeta :=
  { manufacturer := a.manufacturer
    model := a.type
    registration := a.registration
    operator := a.operator
    serialNumber := a.serial_number
    age := none }

/-- Parse of a matching adsbexchange `acList` entry (`app.py` 174-180). -/
def parse_adsbx (ac : AdsbAc) : AircraftMeta :=
  { manufacturer := ac.Man
    model := ac.Mdl
    registration := ac.Reg
    operator := ac.Op
    serialNumber := ac.Sqk
    age := none }

/-- Scheduled/known departure or arrival section of an AeroDataBox flight
payload.  `flight_info.get('departure',{}).get('airport',{}).get('icao')` and
`...get('scheduledTime',{}).get('utc')` are flattened to two optional
fields. -/
structure DepArr where
  airportIcao : Option String
  scheduledTimeUtc : Option String
  deriving DecidableEq, Repr

/-- The `"position"` object of an AeroDataBox flight payload; the nested
`altitude.feet` and `groundSpeed.knots` accesses are flattened. -/
structure PosInfo where
  latitude : Option ℚ
  longitude : Option ℚ
  altitudeFeet : Option ℚ
  groundSpeedKnots : Option ℚ
  heading : Option ℚ
  verticalRate : Option ℚ
  reportedAt : Option String
  deriving DecidableEq, Repr

/-- An AeroDataBox flight payload as read by the details handler.  A field
being `none` models the corresponding key being absent from the dict. -/
structure FlightInfo where
  departure : Option DepArr
  arrival : Option DepArr
  position : Option PosInfo
  callsign : Option String
  number : Option String
  deriving DecidableEq, Repr

/-- An AeroDataBox airport payload; only `fullName` is read. -/
structure AirportInfo where
  fullName : Option String
  deriving DecidableEq, Repr

/-- The behaviour of the third-party HTTP world during one request:
what each upstream endpoint would yield if called.  `Except.error ()` models
the request helper raising (timeout / connection error / non-2xx other than
404); `Except.ok none` models a 404 turned into `None`.  `csv` is the local
offline OpenSky CSV row for the identifier (no network involved). -/
structure Upstream where
  primary : Except Unit (Option AircraftMeta)
  hexdb : HexOutcome
  adsbx : AdsbOutcome
  csv : Option AircraftMeta
  flights : Except Unit (Option FlightInfo)
  airport : String → Except Unit (Option AirportInfo)

/-- The process-wide mutable state touched by the details pipeline.  The
Python `cache` dict is a single map whose keys are prefixed strings
(`aircraft_details_*`, `aircraft_flight_*`, `airport_*`); since the prefixes
are disjoint it is partitioned here into three typed association lists.
`metaCache` is the separate `aircraft_metadata_cache` dict (no TTL). -/
structure ServerState where
  detailsCache : List (String × Option AircraftMeta × Nat)
  flightCache : List (String × Option FlightInfo × Nat)
  airportCache : List (String × Option AirportInfo × Nat)
  metaCache : List (String × AircraftMeta)
  deriving DecidableEq, Repr

/-- The empty initial state of a freshly started process. -/
def ServerState.initial : ServerState := ⟨[], [], [], []⟩

/-- Embedding of `fetch_aircraft_metadata_from_public_apis` (`app.py`
149-186): try hexdb then adsbexchange in the fixed `PUBLIC_APIS` order; any
exception or unparseable body falls through to the next source; return the
first parsed record together with the number of HTTP requests attempted. -/
def fetch_aircraft_metadata_from_public_apis (u : Upstream) (icao24 : String) :
    Option AircraftMeta × Nat :=
  let tryAdsb : Nat → Option AircraftMeta × Nat := fun k =>
    match u.adsbx with
    | AdsbOutcome.err => (none, k + 1)
    | AdsbOutcome.non200 => (none, k + 1)
    | AdsbOutcome.ok200 none => (none, k + 1)
    | AdsbOutcome.ok200 (some acList) =>
      match acList.find? (fun ac => ac.Icao == some icao24) with
      | some ac => (some (parse_adsbx ac), k + 1)
      | none => (none, k + 1)
  match u.hexdb with
  | HexOutcome.err => tryAdsb 1
  | HexOutcome.non200 => tryAdsb 1
  | HexOutcome.ok200 body =>
    match body.aircraft with
    | some a => (some (parse_hexdb a), 1)
    | none => tryAdsb 1

/-- Embedding of `get_aircraft_metadata` (`app.py` 202-224): consult the
persistent metadata cache, then the public APIs, then the offline CSV; cache
any hit; a miss everywhere is returned uncached. -/
def get_aircraft_metadata (u : Upstream) (st : ServerState) (icao24 : String) :
    Option AircraftMeta × ServerState × Nat :=
  match (st.metaCache.find? (fun e => e.1 == icao24)).map (fun e => e.2) with
  | some cached => (some cached, st, 0)
  | none =>
    let (metadata, n) := fetch_aircraft_metadata_from_public_apis u icao24
    match metadata with
    | some m => (some m, { st with metaCache := (icao24, m) :: st.metaCache }, n)
    | none =>
      match u.csv with
      | some m => (some m, { st with metaCache := (icao24, m) :: st.metaCache }, n)
      | none => (none, st, n)

/-- Python's `any([d.get('model'), d.get('manufacturer'), d.get('registration')])`
applied to an optional metadata record: `False` when the record is absent or
all three key fields are null/empty. -/
def hasUsefulFields : Option AircraftMeta → Bool
  | none => false
  | some m => optTruthy m.model || optTruthy m.manufacturer || optTruthy m.registration

/-- Metadata portion of the `/api/aircraft/details` handler (`app.py`
713-733): TTL-cached AeroDataBox fetch, then — only when the primary record
is absent or has no useful field — the public/CSV fallback chain.  An
exception from the primary fetch propagates out of the handler's `try`
block. -/
def aircraft_details_metadata (u : Upstream) (st : ServerState)
    (icao24 : String) (now : Nat) :
    Except Unit (Option AircraftMeta × ServerState × Nat) :=
  match get_cached_or_fetch st.detailsCache (("aircraft_details_") ++ icao24)
      now u.primary with
  | Except.error e => Except.error e
  | Except.ok (aircraft_details, c, n1) =>
    let st1 : ServerState := { st with detailsCache := c }
    if hasUsefulFields aircraft_details then
      Except.ok (aircraft_details, st1, n1)
    else
      let (m, st2, n2) := get_aircraft_metadata u st1 icao24
      Except.ok (m, st2, n1 + n2)

/-- Modelled from the spec: the field-wise first-non-null merge of two
metadata records in priority order ("merge is field-wise first-non-null-wins
in source-priority order").  No function in `src/` implements this; it is
defined only to be compared against the code's record-wise fallback. -/
def mergeFirstNonNull (a b : AircraftMeta) : AircraftMeta :=
  { manufacturer := a.manufacturer <|> b.manufacturer
    model := a.model <|> b.model
    registration := a.registration <|> b.registration
    operator := a.operator <|> b.operator
    serialNumber := a.serialNumber <|> b.serialNumber
    age := a.age <|> b.age }

/-- The `route_info` dict assembled by the details handler (`app.py`
757-764). -/
structure RouteInfo where
  fromIcao : String
  toIcao : String
  fromName : Option String
  toName : Option String
  departureTime : Option String
  arrivalTime : Option String
  deriving DecidableEq, Repr

/-- The `current_position` dict assembled by the details handler (`app.py`
765-776). -/
structure CurrentPosition where
  latitude : Option ℚ
  longitude : Option ℚ
  altitude : Option ℚ
  speed : Option ℚ
  heading : Option ℚ
  verticalRate : Option ℚ
  timestamp : Option String
  deriving DecidableEq, Repr

/-- The `meta` dict of the details response (`app.py` 777-796).  The live
fields are only present after the `meta.update(...)` that runs when a
current position exists. -/
structure MetaOut where
  model : Option String
  manufacturer : Option String
  registration : Option String
  serialNumber : Option String
  operator : Option String
  age : Option ℚ
  callsign : Option String
  flightNumber : Option String
  altitude : Option ℚ
  speed : Option ℚ
  heading : Option ℚ
  verticalRate : Option ℚ
  onGround : Option Bool
  deriving DecidableEq, Repr

/-- The top-level JSON object returned by `/api/aircraft/details` (raw
payloads and timestamp omitted). -/
structure DetailsResponse where
  meta : Option MetaOut
  route : Option RouteInfo
  position : Option CurrentPosition
  deriving DecidableEq, Repr

/-- Route section of the details handler (`app.py` 740-764), threading the
TTL cache through the two airport lookups.  Returns the route (if both
airport codes resolve), the updated state and the network-call count.  An
exception from either airport fetch propagates. -/
def assemble_route (u : Upstream) (st : ServerState)
    (flight_info : Option FlightInfo) :
    Nat → Except Unit (Option RouteInfo × ServerState × Nat) := fun now =>
  match flight_info with
  | none => Except.ok (none, st, 0)
  | some fi =>
    match fi.departure, fi.arrival with
    | some dep, some arr =>
      match dep.airportIcao, arr.airportIcao with
      | some departure_airport, some arrival_airport =>
        match get_cached_or_fetch st.airportCache
            (("airport_") ++ departure_airport) now (u.airport departure_airport) with
        | Except.error e => Except.error e
        | Except.ok (departure_details, c1, n1) =>
          let st1 : ServerState := { st with airportCache := c1 }
          match get_cached_or_fetch st1.airportCache
              (("airport_") ++ arrival_airport) now (u.airport arrival_airport) with
          | Except.error e => Except.error e
          | Except.ok (arrival_details, c2, n2) =>
            let st2 : ServerState := { st1 with airportCache := c2 }
            Except.ok (some
              { fromIcao := departure_airport
                toIcao := arrival_airport
                fromName := departure_details.bind (fun d => d.fullName)
                toName := arrival_details.bind (fun d => d.fullName)
                departureTime := dep.scheduledTimeUtc
                arrivalTime := arr.scheduledTimeUtc }, st2, n1 + n2)
      | _, _ => Except.ok (none, st, 0)
    | _, _ => Except.ok (none, st, 0)

/-- Position section of the details handler (`app.py` 765-776). -/
def assemble_position (flight_info : Option FlightInfo) : Option CurrentPosition :=
  match flight_info with
  | none => none
  | some fi =>
    match fi.position with
    | none => none
    | some p => some
      { latitude := p.latitude
        longitude := p.longitude
        altitude := p.altitudeFeet
        speed := p.groundSpeedKnots
        heading := p.heading
        verticalRate := p.verticalRate
        timestamp := p.reportedAt }

/-- Meta section of the details handler (`app.py` 777-796).  When a current
position exists, `meta.update` recomputes the live fields and evaluates
`current_position.get('altitude', 0) <= 100`; the `'altitude'` key is always
present in the dict, so when its value is `None` the Python comparison
`None <= 100` raises a `TypeError` — modelled as `Except.error`. -/
def assemble_meta (aircraft_details : Option AircraftMeta)
    (flight_info : Option FlightInfo)
    (current_position : Option CurrentPosition) :
    Except Unit (Option MetaOut) :=
  match aircraft_details with
  | none => Except.ok none
  | some ad =>
    let base : MetaOut :=
      { model := ad.model
        manufacturer := ad.manufacturer
        registration := ad.registration
        serialNumber := ad.serialNumber
        operator := ad.operator
        age := ad.age
        callsign := flight_info.bind (fun fi => fi.callsign)
        flightNumber := flight_info.bind (fun fi => fi.number)
        altitude := none
        speed := none
        heading := none
        verticalRate := none
        onGround := none }
    match current_position with
    | none => Except.ok (some base)
    | some cp =>
      match cp.altitude with
      | none => Except.error ()
      | some alt => Except.ok (some
        { base with
          altitude := cp.altitude
          speed := cp.speed
          heading := cp.heading
          verticalRate := cp.verticalRate
          onGround := some (alt ≤ 100) })

/-- Embedding of the `/api/aircraft/details` request handler body (`app.py`
713-809): metadata with fallback, TTL-cached flight fetch, route and
position assembly, merged meta.  Any exception anywhere inside the `try`
block surfaces as `Except.error` (the handler then answers 500). -/
def get_aircraft_details_response (u : Upstream) (st : ServerState)
    (icao24 : String) (now : Nat) :
    Except Unit (DetailsResponse × ServerState × Nat) :=
  match aircraft_details_metadata u st icao24 now with
  | Except.error e => Except.error e
  | Except.ok (aircraft_details, st1, n1) =>
    match get_cached_or_fetch st1.flightCache (("aircraft_flight_") ++ icao24)
        now u.flights with
    | Except.error e => Except.error e
    | Except.ok (flight_info, fc, n2) =>
      let st2 : ServerState := { st1 with flightCache := fc }
      match assemble_route u st2 flight_info now with
      | Except.error e => Except.error e
      | Except.ok (route_info, st3, n3) =>
        let current_position := assemble_position flight_info
        match assemble_meta aircraft_details flight_info current_position with
        | Except.error e => Except.error e
        | Except.ok meta =>
          Except.ok ({ meta := meta, route := route_info,
                       position := current_position }, st3, n1 + n2 + n3)

/-- The portion of Python's `math` module used by the geo code.  The code is
polymorphic in the number type: theorems about exact geometry instantiate it
with `ℝ` and the genuine trigonometric functions, executable witnesses with
`ℚ` and stub operations. -/
structure TrigOps (α : Type) where
  sin : α → α
  cos : α → α
  sqrt : α → α
  atan2 : α → α → α
  pi : α

/-- Python's `math.radians(x) = x * pi / 180`. -/
def mathRadians {α : Type} [Field α] (T : TrigOps α) (x : α) : α :=
  x * T.pi / 180

/-- Embedding of `calculate_distance` (`app.py` 439-454): haversine distance
in kilometres with Earth radius 6371. -/
def calculate_distance {α : Type} [Field α] (T : TrigOps α)
    (lat1 lon1 lat2 lon2 : α) : α :=
  let R : α := 6371
  let lat1_rad := mathRadians T lat1
  let lon1_rad := mathRadians T lon1
  let lat2_rad := mathRadians T lat2
  let lon2_rad := mathRadians T lon2
  let dlon := lon2_rad - lon1_rad
  let dlat := lat2_rad - lat1_rad
  let a := T.sin (dlat / 2) ^ 2 + T.cos lat1_rad * T.cos lat2_rad * T.sin (dlon / 2) ^ 2
  let c := 2 * T.atan2 (T.sqrt a) (T.sqrt (1 - a))
  R * c

/-- Bounding box computed by `fetch_opensky_states` (`app.py` 352-377) from a
centre and radius, as `(min_lat, max_lat, min_lon, max_lon)`: 111.32 km per
degree of latitude and `111.32 * cos(lat)` km per degree of longitude. -/
def fetch_opensky_bbox {α : Type} [Field α] (T : TrigOps α)
    (lat lon radius_km : α) : α × α × α × α :=
  let lat_km : α := 111.32
  let lon_km : α := 111.32 * T.cos (mathRadians T lat)
  let lat_delta := radius_km / lat_km
  let lon_delta := radius_km / lon_km
  (lat - lat_delta, lat + lat_delta, lon - lon_delta, lon + lon_delta)

/-- Modelled from the spec: the upstream positional source returns exactly
the state vectors inside the rectangle `[lamin, lamax] × [lomin, lomax]`
passed by `fetch_opensky_states`; the rectangle-membership test itself is
server-side and not in `src/`. -/
def inBoundingBox {α : Type} [LinearOrder α] (box : α × α × α × α)
    (plat plon : α) : Prop :=
  box.1 ≤ plat ∧ plat ≤ box.2.1 ∧ box.2.2.1 ≤ plon ∧ plon ≤ box.2.2.2

/-- Python's `math.atan2` on the reals, for the argument ranges the haversine
formula produces (`atan2(0, 0) = 0` as in CPython). -/
noncomputable def realAtan2 (y x : ℝ) : ℝ :=
  if 0 < x then Real.arctan (y / x)
  else if x < 0 then
    (if 0 ≤ y then Real.arctan (y / x) + Real.pi else Real.arctan (y / x) - Real.pi)
  else (if 0 < y then Real.pi / 2 else if y < 0 then -(Real.pi / 2) else 0)

/-- The genuine `math` module: real sine, cosine, square root, `atan2` and π. -/
noncomputable def realTrig : TrigOps ℝ :=
  { sin := Real.sin, cos := Real.cos, sqrt := Real.sqrt
    atan2 := realAtan2, pi := Real.pi }

/-- One OpenSky state vector as indexed by `process_opensky_states`
(`app.py` 385-413): index 0 `icao24`, 1 `callsign`, 2 `origin country`,
5 `longitude`, 6 `latitude`, 7 `baro altitude (m)`, 8 `on ground`,
9 `velocity (m/s)`, 10 `true track`, 11 `vertical rate (m/s)`. -/
structure StateVec (α : Type) where
  icao24 : String
  callsign : Option String
  country : String
  longitude : Option α
  latitude : Option α
  baroAltitude : Option α
  onGround : Bool
  velocity : Option α
  trueTrack : Option α
  verticalRate : Option α
  deriving DecidableEq, Repr

/-- The `aircraft_data` dict built for one kept state vector (`app.py`
402-415). -/
structure AircraftData (α : Type) where
  icao24 : String
  callsign : Option String
  country : String
  latitude : α
  longitude : α
  altitude : Option α
  speed : Option α
  heading : Option α
  verticalRate : Option α
  onGround : Bool
  distance : α
  deriving DecidableEq, Repr

/-- The OpenSky `states/all` JSON payload: `none` models a missing
`"states"` key or a null value there. -/
structure StatesPayload (α : Type) where
  states : Option (List (StateVec α))
  deriving DecidableEq, Repr

/-- Insert an element into a sorted list, after any element it ties with. -/
def insertSortedBy {β : Type} (le : β → β → Bool) (x : β) : List β → List β
  | [] => [x]
  | y :: ys => if le y x then y :: insertSortedBy le x ys else x :: y :: ys

/-- Stable insertion sort.  Python's `list.sort` is a stable sort, and every
stable sort produces the same list for a given (total pre-order) key, so this
is an exact model of `result.sort(key=lambda x: x['distance'])`. -/
def stableSortBy {β : Type} (le : β → β → Bool) (l : List β) : List β :=
  l.foldl (fun acc x => insertSortedBy le x acc) []

/-- Python's `round(x, 1)` on exact numbers: round to one decimal place with
ties to even (CPython float rounding). -/
def pyRound1 {α : Type} [LinearOrderedField α] [FloorRing α] (x : α) : α :=
  let r := x * 10
  let n : ℤ := ⌊r⌋
  let frac := r - n
  let v : ℤ :=
    if frac < 1 / 2 then n
    else if 1 / 2 < frac then n + 1
    else if Even n then n else n + 1
  (v : α) / 10

/-- Python truthiness guard used in the unit conversions, e.g.
`state[7] * 3.28084 if state[7] else None`: `None` and `0` both map to
`None`. -/
def convertIfTruthy {α : Type} [LinearOrderedField α] (factor : α) :
    Option α → Option α
  | none => none
  | some v => if v = 0 then none else some (v * factor)

/-- The `callsign` normalization `state[1].strip() if state[1] else None`:
an absent or empty callsign yields `None`; otherwise surrounding whitespace
is stripped (a whitespace-only callsign becomes the empty string, not
`None`). -/
def normalizeCallsign : Option String → Option String
  | none => none
  | some c => if c = ("") then none else some (String.mk
      (((c.data.dropWhile Char.isWhitespace).reverse.dropWhile Char.isWhitespace).reverse))

/-- The body of the `for state in states` loop (`app.py` 402-415): the
`aircraft_data` record for a state vector whose position is present, given
its already-computed distance from the centre. -/
def mkAircraftData {α : Type} [LinearOrderedField α] [FloorRing α]
    (s : StateVec α) (lat lon distance : α) : AircraftData α :=
  { icao24 := s.icao24
    callsign := normalizeCallsign s.callsign
    country := s.country
    latitude := lat
    longitude := lon
    altitude := convertIfTruthy (3.28084 : α) s.baroAltitude
    speed := convertIfTruthy (1.94384 : α) s.velocity
    heading := s.trueTrack
    verticalRate := convertIfTruthy (196.85 : α) s.verticalRate
    onGround := s.onGround
    distance := pyRound1 distance }

/-- Embedding of `process_opensky_states` (`app.py` 379-421): empty result
for an absent/empty payload; skip records with a null latitude or longitude;
recompute the exact distance and drop records with `distance > radius_km`;
sort ascending by the (rounded) distance with a stable sort, as
`list.sort` does. -/
def process_opensky_states {α : Type} [LinearOrderedField α] [FloorRing α]
    (T : TrigOps α) (states_data : Option (StatesPayload α))
    (center_lat center_lon radius_km : α) : List (AircraftData α) :=
  match states_data with
  | none => []
  | some sd =>
    match sd.states with
    | none => []
    | some [] => []
    | some states =>
      let result := states.filterMap (fun s =>
        match s.longitude, s.latitude with
        | some longitude, some latitude =>
          let distance := calculate_distance T center_lat center_lon latitude longitude
          if radius_km < distance then none
          else some (mkAircraftData s latitude longitude distance)
        | _, _ => none)
      stableSortBy (fun a b => decide (a.distance ≤ b.distance)) result

/-- The input `states` list of a payload, empty when absent. -/
def statesOf {α : Type} (states_data : Option (StatesPayload α)) :
    List (StateVec α) :=
  match states_data with
  | none => []
  | some sd => sd.states.getD []

/-- Embedding of `notify_new_aircraft` (`app.py` 626-664).  The globals and
collaborators appear as parameters: `enabled` is `VESTABOARD_ENABLED`,
`vesta_config` the result of `load_vestaboard_config()` (present or not),
`connection_ok` the outcome of `test_connection()`, `send_ok` the outcome of
`send_message(...)`, `tracked` the `tracked_aircraft` set and `icao24` the
`aircraft_data.get('icao24')` value.  Returns the boolean result, the new
tracked set, and how many send attempts were made. -/
def notify_new_aircraft (enabled : Bool) (vesta_config : Option Unit)
    (connection_ok send_ok : Bool) (tracked : List String)
    (icao24 : Option String) : Bool × List String × Nat :=
  if !enabled then (false, tracked, 0)
  else
    match icao24 with
    | none => (false, tracked, 0)
    | some i =>
      if !pyTruthy i then (false, tracked, 0)
      else if i ∈ tracked then (false, tracked, 0)
      else
        match vesta_config with
        | none => (false, tracked, 0)
        | some _ =>
          if !connection_ok then (false, tracked, 0)
          else if send_ok then (true, i :: tracked, 1)
          else (false, tracked, 1)

/-- Embedding of `clear_notified_aircraft` (`auto_detection.py` 298-303):
clear the notified set wholesale once it holds strictly more than 100
identifiers, otherwise leave it untouched.  Identifiers are ICAO24 strings
in the source; the set is polymorphic here. -/
def clear_notified_aircraft {γ : Type} [DecidableEq γ] (notified : Finset γ) :
    Finset γ :=
  if 100 < notified.card then ∅ else notified

/-- Python's `str.strip()`: drop leading and trailing whitespace. -/
def pyStrip (s : String) : String :=
  String.mk (((s.data.dropWhile Char.isWhitespace).reverse.dropWhile
    Char.isWhitespace).reverse)

/-- Python's `s[:22] if len(s) > 22 else s`. -/
def pyTrunc22 (s : String) : String :=
  if 22 < s.data.length then String.mk (s.data.take 22) else s

/-- Python's `str.split(sep)` for a one-character separator: always at least
one part, empty parts kept. -/
def splitCharAux (sep : Char) : List Char → List Char → List (List Char)
  | [], acc => [acc.reverse]
  | c :: rest, acc =>
    if c = sep then acc.reverse :: splitCharAux sep rest []
    else splitCharAux sep rest (c :: acc)

/-- Split a character list on a separator character. -/
def splitChar (sep : Char) (l : List Char) : List (List Char) :=
  splitCharAux sep l []

/-- Python's no-argument `str.split()`: split on whitespace runs, dropping
empty parts. -/
def wsSplit (l : List Char) : List (List Char) :=
  (l.foldr (fun c acc =>
    if c.isWhitespace then [] :: acc
    else
      match acc with
      | [] => [[c]]
      | g :: gs => (c :: g) :: gs) []).filter (fun g => g ≠ [])

/-- Python's `str.replace("  ", " ")`: collapse each non-overlapping
two-space occurrence, scanning left to right. -/
def pyReplaceDoubleSpace : List Char → List Char
  | ' ' :: ' ' :: rest => ' ' :: pyReplaceDoubleSpace rest
  | c :: rest => c :: pyReplaceDoubleSpace rest
  | [] => []

/-- Python's `str.replace('¬∞', '')` — the degree marker as it appears
(mojibake) in the source text of `app.py`. -/
def removeDegreeSeq : List Char → List Char
  | '¬' :: '∞' :: rest => removeDegreeSeq rest
  | c :: rest => c :: removeDegreeSeq rest
  | [] => []

/-- Decimal value of a non-empty all-digit character list. -/
def digitsVal (l : List Char) : Option ℕ :=
  if l ≠ [] ∧ l.all Char.isDigit then
    some (l.foldl (fun acc c => acc * 10 + (c.toNat - 48)) 0)
  else none

/-- Python's `int(str)` on an already-stripped token: optional sign followed
by decimal digits, `none` when the parse raises `ValueError`. -/
def pyInt : List Char → Option ℤ
  | '-' :: ds => (digitsVal ds).map (fun n => -(n : ℤ))
  | '+' :: ds => (digitsVal ds).map (fun n => (n : ℤ))
  | ds => (digitsVal ds).map (fun n => (n : ℤ))

/-- Decimal string of a natural number. -/
def natDecString (n : ℕ) : String := String.mk (Nat.toDigits 10 n)

/-- Decimal string of an integer, as Python's `f"{n}"`. -/
def intDecString (i : ℤ) : String :=
  (if i < 0 then ("-") else ("")) ++ natDecString i.natAbs

/-- Insert a comma after every third digit of a least-significant-first
digit list (no leading comma). -/
def insertCommasLSD : List Char → ℕ → List Char
  | [], _ => []
  | c :: rest, k =>
    c :: (if (k + 1) % 3 = 0 ∧ rest ≠ [] then
      ',' :: insertCommasLSD rest (k + 1)
    else insertCommasLSD rest (k + 1))

/-- Python's thousands-separated format `f"{n:,}"` for an integer. -/
def commaFormatInt (i : ℤ) : String :=
  (if i < 0 then ("-") else ("")) ++
    String.mk ((insertCommasLSD ((Nat.toDigits 10 i.natAbs).reverse) 0).reverse)

/-- The `aircraft_data` dict as read by `format_flight_notification`
(`app.py` 517-624): each field optional (`none` models an absent key).
Numeric fields are modelled as integers, the shape they have after the
code's own `int(...)` coercions. -/
structure VbAircraft where
  callsign : Option String
  altitude : Option ℤ
  heading : Option ℤ
  speed : Option ℤ
  position : Option String
  manufacturer : Option String
  model : Option String
  aircraftType : Option String
  registration : Option String
  registeredOwner : Option String
  country : Option String
  deriving DecidableEq, Repr

/-- The position-string parse of `format_flight_notification` (`app.py`
543-554): `"<alt> ft | <hdg>¬∞"` split on `|`; the `try` block assigns
`altitude` first, so a later failure (missing second part or a bad heading
parse) keeps the new altitude and the old heading. -/
def parse_position_string (posStr : String) (alt0 head0 : ℤ) : ℤ × ℤ :=
  let parts := splitChar ('|') posStr.data
  let alt_part := pyStrip (String.mk (parts.headD []))
  match (wsSplit alt_part.data).head? with
  | none => (alt0, head0)
  | some tok =>
    match pyInt tok with
    | none => (alt0, head0)
    | some a =>
      match parts.get? 1 with
      | none => (a, head0)
      | some p1 =>
        match pyInt (removeDegreeSeq ((pyStrip (String.mk p1)).data)) with
        | none => (a, head0)
        | some h => (a, h)

/-- The `callsign` local of `format_flight_notification`:
`aircraft_data.get('callsign', 'UNKNOWN').strip()`. -/
def vb_callsign (r : VbAircraft) : String := pyStrip (r.callsign.getD ("UNKNOWN"))

/-- The `altitude` and `heading` locals after the position-string fallback
(`app.py` 538-554): explicit numeric fields first; when either is falsy and
a position string is present, both may be reassigned from its parse. -/
def vb_altitude_heading (r : VbAircraft) : ℤ × ℤ :=
  let altitude0 : ℤ := r.altitude.getD 0
  let heading0 : ℤ := r.heading.getD 0
  if altitude0 = 0 ∨ heading0 = 0 then
    let position_str := r.position.getD ("")
    if pyTruthy position_str then parse_position_string position_str altitude0 heading0
    else (altitude0, heading0)
  else (altitude0, heading0)

/-- The `speed` local (`app.py` 556-562) after its `int` coercion. -/
def vb_speed (r : VbAircraft) : ℤ := r.speed.getD 0

/-- The `manufacturer` and `model` locals after the `aircraftType` fallback
(`app.py` 564-577): when either is falsy and an `aircraftType` string is
present, a `"<man>: <model>"` form reassigns both, any other form replaces
only the model. -/
def vb_manufacturer_model (r : VbAircraft) : String × String :=
  let manufacturer0 := r.manufacturer.getD ("")
  let model0 := r.model.getD ("")
  if ¬ (pyTruthy manufacturer0 ∧ pyTruthy model0) then
    let aircraft_type_str := r.aircraftType.getD ("")
    if pyTruthy aircraft_type_str then
      if aircraft_type_str.data.contains ':' then
        let before := (aircraft_type_str.data.takeWhile (fun c => c ≠ ':'))
        let after := (aircraft_type_str.data.dropWhile (fun c => c ≠ ':')).drop 1
        (pyStrip (String.mk before), pyStrip (String.mk after))
      else (manufacturer0, aircraft_type_str)
    else (manufacturer0, model0)
  else (manufacturer0, model0)

/-- The `alt_str` local: thousands-separated feet, or `N/A` when falsy. -/
def vb_alt_str (r : VbAircraft) : String :=
  if (vb_altitude_heading r).1 ≠ 0 then
    commaFormatInt (vb_altitude_heading r).1 ++ (" ft")
  else ("N/A")

/-- The `speed_str` local: knots, or `N/A` when falsy. -/
def vb_speed_str (r : VbAircraft) : String :=
  if vb_speed r ≠ 0 then intDecString (vb_speed r) ++ (" knots") else ("N/A")

/-- The `heading_str` local: degrees (with the source's mojibake degree
marker), or `N/A` when falsy. -/
def vb_heading_str (r : VbAircraft) : String :=
  if (vb_altitude_heading r).2 ≠ 0 then
    intDecString (vb_altitude_heading r).2 ++ ("¬∞")
  else ("N/A")

/-- The `aircraft_type` local (`app.py` 590-598). -/
def vb_aircraft_type (r : VbAircraft) : String :=
  let manufacturer := (vb_manufacturer_model r).1
  let model := (vb_manufacturer_model r).2
  if pyTruthy manufacturer ∧ pyTruthy model then
    pyStrip (String.mk (pyReplaceDoubleSpace ((manufacturer ++ (" ") ++ model).data)))
  else if pyTruthy manufacturer then manufacturer
  else if pyTruthy model then model
  else ("Unknown")

/-- The `owner_operator` local (`app.py` 600-605); `operator` and `owner`
both read `registeredOwner`. -/
def vb_owner_operator (r : VbAircraft) : String :=
  let operator0 := r.registeredOwner.getD ("")
  let owner := r.registeredOwner.getD ("")
  if pyTruthy operator0 then operator0
  else if pyTruthy owner then owner
  else ("")

/-- The `lines` list built by `format_flight_notification` (`app.py`
607-622): truncation of each textual field to 22 characters, then six
composed lines. -/
def format_flight_notification_lines (r : VbAircraft) : List String :=
  [pyTrunc22 (vb_callsign r) ++ ("   ") ++ pyTrunc22 (r.registration.getD ("")),
   pyTrunc22 (vb_owner_operator r) ++ ("  ") ++ pyTrunc22 (r.country.getD ("")),
   pyTrunc22 (vb_aircraft_type r),
   vb_alt_str r,
   vb_speed_str r,
   vb_heading_str r]

/-- The text returned by `format_flight_notification`: the six lines joined
with newlines. -/
def format_flight_notification (r : VbAircraft) : String :=
  String.intercalate ("\n") (format_flight_notification_lines r)

/-- The `char_codes` table of `VestaboardAPI` applied after `.upper()`:
unknown characters map to 0 (blank). -/
def vestaCharCode (c : Char) : ℕ :=
  match c.toUpper with
  | ' ' => 0
  | 'A' => 1 | 'B' => 2 | 'C' => 3 | 'D' => 4 | 'E' => 5
  | 'F' => 6 | 'G' => 7 | 'H' => 8 | 'I' => 9 | 'J' => 10
  | 'K' => 11 | 'L' => 12 | 'M' => 13 | 'N' => 14 | 'O' => 15
  | 'P' => 16 | 'Q' => 17 | 'R' => 18 | 'S' => 19 | 'T' => 20
  | 'U' => 21 | 'V' => 22 | 'W' => 23 | 'X' => 24 | 'Y' => 25 | 'Z' => 26
  | '1' => 27 | '2' => 28 | '3' => 29 | '4' => 30 | '5' => 31
  | '6' => 32 | '7' => 33 | '8' => 34 | '9' => 35 | '0' => 36
  | '!' => 37 | '@' => 38 | '#' => 39 | '$' => 40 | '(' => 41 | ')' => 42
  | '-' => 44 | '+' => 46 | '&' => 47 | '=' => 48 | ';' => 49 | ':' => 50
  | '%' => 54 | ',' => 55 | '.' => 56 | '/' => 59 | '?' => 60 | '°' => 62
  | '\'' => 52 | '"' => 53
  | '🔴' => 63 | '🟠' => 64 | '🟡' => 65 | '🟢' => 66
  | '🔵' => 67 | '🟣' => 68 | '⚪' => 69 | '⚫' => 70
  | _ => 0

/-- Embedding of `VestaboardAPI._text_to_character_codes`
(`vestaboard_api.py` 75-115) with the default 6 × 22 grid: split on
newlines, keep at most 6 lines, encode at most 22 characters per line, pad
each line with blanks to 22 codes and the grid with blank lines to 6. -/
def text_to_character_codes (text : String) : List (List ℕ) :=
  let lines := (splitChar ('\n') text.data).take 6
  let character_lines := lines.map (fun line =>
    let codes := (line.take 22).map vestaCharCode
    codes ++ List.replicate (22 - codes.length) 0)
  character_lines ++ List.replicate (6 - character_lines.length)
    (List.replicate 22 0)

/-- Stub arithmetic for executable witnesses over `ℚ` (any `TrigOps` works
for the structural theorems, which hold for every distance function). -/
def qTrig : TrigOps ℚ :=
  { sin := fun _ => 0, cos := fun _ => 0, sqrt := fun _ => 0
    atan2 := fun _ _ => 0, pi := 0 }

/-- Stub arithmetic whose computed distance is exactly 5 km
(`6371 * (2 * (5 / 12742)) = 5`), to exercise the boundary case of the
radius filter with radius 5. -/
def qTrigBoundary : TrigOps ℚ :=
  { sin := fun _ => 0, cos := fun _ => 0, sqrt := fun _ => 0
    atan2 := fun _ _ => 5 / 12742, pi := 0 }

/-- Higher-priority metadata record of the spec's merge example:
`{manufacturer: null, model: "737"}`. -/
def recA : AircraftMeta :=
  { manufacturer := none, model := some ("737"), registration := none
    operator := none, serialNumber := none, age := none }

/-- Lower-priority metadata record of the spec's merge example:
`{manufacturer: "Boeing", model: "747"}`. -/
def recB : AircraftMeta :=
  { manufacturer := some ("Boeing"), model := some ("747"), registration := none
    operator := none, serialNumber := none, age := none }

/-- Hexdb aircraft object carrying the fields of `recB`. -/
def hexB747 : HexAircraft :=
  { manufacturer := some ("Boeing"), type := some ("747")
    registration := none, operator := none, serial_number := none }

/-- Upstream world for the merge example: AeroDataBox answers with `recA`,
hexdb would answer with `recB`. -/
def uC1 : Upstream :=
  { primary := Except.ok (some recA)
    hexdb := HexOutcome.ok200 { aircraft := some hexB747 }
    adsbx := AdsbOutcome.err
    csv := none
    flights := Except.ok none
    airport := fun _ => Except.ok none }

/-- The hexdb body `{"aircraft": {"manufacturer": "Boeing"}}` of the spec's
fallback example. -/
def hexBoeing : HexAircraft :=
  { manufacturer := some ("Boeing"), type := none, registration := none
    operator := none, serial_number := none }

/-- The record parsed from `hexBoeing`: manufacturer Boeing, all other
fields null. -/
def metaBoeing : AircraftMeta :=
  { manufacturer := some ("Boeing"), model := none, registration := none
    operator := none, serialNumber := none, age := none }

/-- Upstream world where the primary metadata request times out and hexdb
would answer `{"aircraft": {"manufacturer": "Boeing"}}`. -/
def uC2timeout : Upstream :=
  { primary := Except.error ()
    hexdb := HexOutcome.ok200 { aircraft := some hexBoeing }
    adsbx := AdsbOutcome.err
    csv := none
    flights := Except.ok none
    airport := fun _ => Except.ok none }

/-- The same world with the primary source answering 404 (absent) instead of
raising. -/
def uC2absent : Upstream :=
  { uC2timeout with primary := Except.ok none }

/-- A matching adsbexchange record for identifier `abc123`. -/
def acBoeing : AdsbAc :=
  { Icao := some ("abc123"), Man := some ("Boeing"), Mdl := some ("747")
    Reg := some ("G-ABCD"), Op := some ("BA"), Sqk := some ("1234") }

/-- The record parsed from `acBoeing`. -/
def metaAdsb : AircraftMeta :=
  { manufacturer := some ("Boeing"), model := some ("747")
    registration := some ("G-ABCD"), operator := some ("BA")
    serialNumber := some ("1234"), age := none }

/-- Upstream world where the primary source is absent, the first public
source (hexdb) times out, and the second (adsbexchange) matches. -/
def uC2pubTimeout : Upstream :=
  { primary := Except.ok none
    hexdb := HexOutcome.err
    adsbx := AdsbOutcome.ok200 (some [acBoeing])
    csv := none
    flights := Except.ok none
    airport := fun _ => Except.ok none }

/-- Server state after the first fallback-example fetch at time `now1`: the
primary's absent answer is TTL-cached, the Boeing record sits in the
persistent metadata cache. -/
def stC2 (now1 : Nat) : ServerState :=
  { detailsCache := [(("aircraft_details_") ++ ("abc123"), none, now1)]
    flightCache := [], airportCache := []
    metaCache := [(("abc123"), metaBoeing)] }

/-- Upstream world where every metadata source is empty and the flight
fetch raises (timeout). -/
def uC4bad : Upstream :=
  { primary := Except.ok none
    hexdb := HexOutcome.ok200 { aircraft := none }
    adsbx := AdsbOutcome.ok200 none
    csv := none
    flights := Except.error ()
    airport := fun _ => Except.ok none }

/-- Upstream world where every sub-fetch answers "absent" without error. -/
def uC4absent : Upstream :=
  { uC4bad with flights := Except.ok none }

/-- Upstream world where the primary metadata resolves but the flight is
absent. -/
def uC4partial : Upstream :=
  { uC4absent with primary := Except.ok (some recA) }

/-- The meta section assembled from `recA` with no flight data. -/
def metaOutA : MetaOut :=
  { model := some ("737"), manufacturer := none, registration := none
    serialNumber := none, operator := none, age := none, callsign := none
    flightNumber := none, altitude := none, speed := none, heading := none
    verticalRate := none, onGround := none }

/-- Notification record with a 26-character callsign and a short
registration. -/
def c9Rec : VbAircraft :=
  { callsign := some ("ABCDEFGHIJKLMNOPQRSTUVWXYZ"), altitude := none
    heading := none, speed := none, position := none, manufacturer := none
    model := none, aircraftType := none, registration := some ("G-ABCD")
    registeredOwner := none, country := none }

/-- Notification record with every field absent. -/
def vbNoneRec : VbAircraft :=
  { callsign := none, altitude := none, heading := none, speed := none
    position := none, manufacturer := none, model := none
    aircraftType := none, registration := none, registeredOwner := none
    country := none }

/-- A state vector sitting exactly at the centre of the query. -/
def stateVecEx : StateVec ℚ :=
  { icao24 := ("abc123"), callsign := some (" BAW123 ")
    country := ("United Kingdom"), longitude := some 0, latitude := some 0
    baroAltitude := some 6934, onGround := false, velocity := none
    trueTrack := none, verticalRate := none }

/-- A one-record OpenSky payload around `stateVecEx`. -/
def sdEx : Option (StatesPayload ℚ) := some { states := some [stateVecEx] }

/-- A state vector whose numeric fields are all exactly zero and whose
callsign is the empty string. -/
def stateVecZero : StateVec ℚ :=
  { icao24 := ("abc123"), callsign := some ("")
    country := ("UK"), longitude := some 0, latitude := some 0
    baroAltitude := some 0, onGround := true, velocity := some 0
    trueTrack := some 180, verticalRate := some 0 }

/-- Membership in an insertion step. -/
theorem mem_insertSortedBy {β : Type} (le : β → β → Bool) (x a : β) :
    ∀ l : List β, a ∈ insertSortedBy le x l ↔ a = x ∨ a ∈ l := by
  intro l
  induction l with
  | nil => simp [insertSortedBy]
  | cons y ys ih =>
    by_cases h : le y x = true
    · simp [insertSortedBy, h, ih]
      try tauto
    · simp [insertSortedBy, h]
      try tauto

/-- Membership is preserved by the stable sort. -/
theorem mem_stableSortBy {β : Type} (le : β → β → Bool) (a : β) (l : List β) :
    a ∈ stableSortBy le l ↔ a ∈ l := by
  suffices h : ∀ acc : List β,
      a ∈ l.foldl (fun acc x => insertSortedBy le x acc) acc ↔ a ∈ acc ∨ a ∈ l by
    simpa [stableSortBy] using h []
  induction l with
  | nil => intro acc; simp
  | cons y ys ih =>
    intro acc
    simp only [List.foldl_cons, ih, mem_insertSortedBy, List.mem_cons]
    tauto

/-- Truncation to 22 characters never yields a longer string. -/
theorem pyTrunc22_length_le (s : String) : (pyTrunc22 s).length ≤ 22 := by
  unfold pyTrunc22
  split_ifs with h
  · rw [String.length_mk]
    exact List.length_take_le 22 s.data
  · rw [String.length]
    omega

/-- The character grid is always exactly 6 rows of exactly 22 codes. -/
theorem text_to_character_codes_shape (text : String) :
    (text_to_character_codes text).length = 6
    ∧ ∀ row ∈ text_to_character_codes text, row.length = 22 := by
  unfold text_to_character_codes
  constructor
  · have h : ((splitChar ('\n') text.data).take 6).length ≤ 6 :=
      le_trans (List.length_take_le 6 _) (le_refl 6)
    simp only [List.length_append, List.length_map, List.length_replicate]
    omega
  · intro row hrow
    rcases List.mem_append.mp hrow with h | h
    · rcases List.mem_map.mp h with ⟨line, _, rfl⟩
      have h22 : ((line.take 22).map vestaCharCode).length ≤ 22 := by
        simp
      simp only [List.length_append, List.length_replicate]
      omega
    · rcases List.eq_of_mem_replicate h with rfl
      simp

/-- Claim C3: for every cache key and fetch function, a second call within
the 300-second TTL returns the cached value without invoking any fetch
function, a call at or past the TTL invokes the fetch again, and a freshly
fetched value — even a null one — is stored with the current timestamp
unconditionally. -/
theorem c3_ttl_cache_semantics {α : Type} (c : List (String × α × Nat))
    (key : String) (now1 now2 now3 : Nat) (v w : α) (f2 : Except Unit α)
    (hfresh : cacheLookup c key = none)
    (h2 : now2 - now1 < CACHE_DURATION)
    (h3 : CACHE_DURATION ≤ now3 - now1) :
    get_cached_or_fetch c key now1 (Except.ok v)
      = Except.ok (v, cacheInsert c key v now1, 1)
    ∧ cacheLookup (cacheInsert c key v now1) key = some (v, now1)
    ∧ get_cached_or_fetch (cacheInsert c key v now1) key now2 f2
      = Except.ok (v, cacheInsert c key v now1, 0)
    ∧ get_cached_or_fetch (cacheInsert c key v now1) key now3 (Except.ok w)
      = Except.ok (w, cacheInsert (cacheInsert c key v now1) key w now3, 1) := by
  have hl : cacheLookup (cacheInsert c key v now1) key = some (v, now1) := by
    simp [cacheLookup, cacheInsert, List.find?]
  refine ⟨?_, hl, ?_, ?_⟩
  · simp [get_cached_or_fetch, hfresh]
  · simp [get_cached_or_fetch, hl, h2]
  · have hn : ¬ (now3 - now1 < CACHE_DURATION) := not_lt.mpr h3
    simp [get_cached_or_fetch, hl, hn]

/-- Witness for C3 at a concrete key, a null value and concrete instants
0, 299 and 300. -/
theorem c3_ttl_cache_semantics_witness :
    get_cached_or_fetch ([] : List (String × Option ℕ × Nat)) ("k") 0 (Except.ok none)
      = Except.ok (none, cacheInsert [] ("k") none 0, 1)
    ∧ cacheLookup (cacheInsert ([] : List (String × Option ℕ × Nat)) ("k") none 0) ("k")
      = some (none, 0)
    ∧ get_cached_or_fetch (cacheInsert ([] : List (String × Option ℕ × Nat)) ("k") none 0)
        ("k") 299 (Except.ok (some 9))
      = Except.ok (none, cacheInsert [] ("k") none 0, 0)
    ∧ get_cached_or_fetch (cacheInsert ([] : List (String × Option ℕ × Nat)) ("k") none 0)
        ("k") 300 (Except.ok (some 5))
      = Except.ok (some 5, cacheInsert (cacheInsert [] ("k") none 0) ("k") (some 5) 300, 1) :=
  c3_ttl_cache_semantics [] ("k") 0 299 300 none (some 5) (Except.ok (some 9))
    rfl (by decide) (by decide)

/-- Claim C7: an identifier already in the notified set yields no send and
`False`; a failed send leaves the set unchanged and returns `False`; a
`True` result implies the send succeeded and the identifier was added; and
after a successful notification a repeat attempt for the same identifier
sends nothing. -/
theorem c7_notify_at_most_once (enabled connection_ok send_ok : Bool)
    (vesta_config : Option Unit) (tracked : List String) (i : String) :
    (i ∈ tracked →
      notify_new_aircraft enabled vesta_config connection_ok send_ok tracked (some i)
        = (false, tracked, 0))
    ∧ (notify_new_aircraft enabled vesta_config connection_ok false tracked (some i)).1 = false
    ∧ (notify_new_aircraft enabled vesta_config connection_ok false tracked (some i)).2.1
      = tracked
    ∧ ((notify_new_aircraft enabled vesta_config connection_ok send_ok tracked (some i)).1
        = true →
      send_ok = true ∧
        (notify_new_aircraft enabled vesta_config connection_ok send_ok tracked
          (some i)).2.1 = i :: tracked)
    ∧ notify_new_aircraft enabled vesta_config connection_ok send_ok (i :: tracked) (some i)
      = (false, i :: tracked, 0) := by
  unfold notify_new_aircraft
  cases enabled <;> cases vesta_config <;> cases connection_ok <;> cases send_ok <;>
    by_cases h : i ∈ tracked <;> by_cases ht : pyTruthy i <;> simp_all

/-- Witness for C7: with everything configured and working, notifying a
tracked identifier a second time sends nothing. -/
theorem c7_notify_at_most_once_witness :
    notify_new_aircraft true (some ()) true true [("abc123")] (some ("abc123"))
      = (false, [("abc123")], 0) :=
  (c7_notify_at_most_once true true true (some ()) [("abc123")] ("abc123")).1
    (by decide)

/-- Claim C8: the notified set is cleared wholesale exactly when its size
exceeds 100; in particular it is empty after the reset check runs on a set
of 101 identifiers, and untouched at 100 or fewer. -/
theorem c8_threshold_clear {γ : Type} [DecidableEq γ] (s : Finset γ) :
    (s.card = 101 → clear_notified_aircraft s = ∅)
    ∧ (100 < s.card → clear_notified_aircraft s = ∅)
    ∧ (s.card ≤ 100 → clear_notified_aircraft s = s) := by
  unfold clear_notified_aircraft
  refine ⟨fun h => ?_, fun h => ?_, fun h => ?_⟩ <;> split_ifs <;>
    first | rfl | omega

/-- Witness for C8 on a concrete set of 101 distinct identifiers. -/
theorem c8_threshold_clear_witness :
    clear_notified_aircraft (Finset.range 101) = ∅ :=
  (c8_threshold_clear (Finset.range 101)).1 (Finset.card_range 101)

/-- Counterexample to claim C1: on the spec's own example — higher-priority
source `{manufacturer: null, model: "737"}`, lower-priority source
`{manufacturer: "Boeing", model: "747"}` — the code returns the
higher-priority record wholesale, so the merged manufacturer is null, not
`"Boeing"` as the field-wise first-non-null merge demands. -/
theorem c1_fieldwise_merge_counterexample :
    aircraft_details_metadata uC1 ServerState.initial ("abc123") 0
      = Except.ok (some recA,
          { ServerState.initial with detailsCache :=
              [(("aircraft_details_") ++ ("abc123"), some recA, 0)] }, 1)
    ∧ recA.manufacturer = none
    ∧ (mergeFirstNonNull recA recB).manufacturer = some ("Boeing")
    ∧ (mergeFirstNonNull recA recB).model = some ("737") := by
  refine ⟨rfl, rfl, rfl, rfl⟩

/-- Claim C1 (amended): the metadata fallback is record-wise, not
field-wise — whenever the higher-precedence record has any of model,
manufacturer or registration non-null/non-empty, it is returned wholesale
(with one network call) and the lower-precedence sources are never
consulted, so its null fields stay null. -/
theorem c1_recordwise_fallback (u : Upstream) (st : ServerState)
    (icao24 : String) (now : Nat) (a : AircraftMeta)
    (hP : u.primary = Except.ok (some a))
    (hFresh : cacheLookup st.detailsCache (("aircraft_details_") ++ icao24) = none)
    (hUseful : hasUsefulFields (some a) = true) :
    aircraft_details_metadata u st icao24 now
      = Except.ok (some a,
          { st with detailsCache := (cacheInsert st.detailsCache
              (("aircraft_details_") ++ icao24) (some a) now) }, 1) := by
  unfold aircraft_details_metadata get_cached_or_fetch
  rw [hFresh, hP]
  simp [hUseful]

/-- Witness for C1 (amended) on the example records at time 5. -/
theorem c1_recordwise_fallback_witness :
    aircraft_details_metadata uC1 ServerState.initial ("abc123") 5
      = Except.ok (some recA,
          { ServerState.initial with detailsCache := (cacheInsert
              ServerState.initial.detailsCache
              (("aircraft_details_") ++ ("abc123")) (some recA) 5) }, 1) :=
  c1_recordwise_fallback uC1 ServerState.initial ("abc123") 5 recA rfl rfl rfl

/-- Counterexample to claim C2: when the primary metadata request times out
while the first public fallback would answer
`{"aircraft": {"manufacturer": "Boeing"}}`, the details fetch raises (the
handler answers 500) instead of returning a Boeing record — the chain is
aborted by the primary error. -/
theorem c2_timeout_aborts_counterexample :
    aircraft_details_metadata uC2timeout ServerState.initial ("abc123") 0
      = Except.error () := rfl

/-- Claim C2 (amended): an error on a public fallback source does not abort
the chain (the next source is tried), and when the primary source answers
"absent" (rather than erroring) while hexdb returns
`{"aircraft": {"manufacturer": "Boeing"}}`, the fetch yields a record with
manufacturer Boeing and every other field null, after two network calls;
the result is cached under the identifier so a repeat fetch within the TTL
makes zero new network calls. -/
theorem c2_fallback_chain_amended (now1 now2 : Nat)
    (h : now2 - now1 < CACHE_DURATION) :
    aircraft_details_metadata uC2absent ServerState.initial ("abc123") now1
      = Except.ok (some metaBoeing, stC2 now1, 2)
    ∧ aircraft_details_metadata uC2absent (stC2 now1) ("abc123") now2
      = Except.ok (some metaBoeing, stC2 now1, 0)
    ∧ metaBoeing.manufacturer = some ("Boeing") ∧ metaBoeing.model = none
    ∧ metaBoeing.registration = none ∧ metaBoeing.operator = none
    ∧ metaBoeing.serialNumber = none ∧ metaBoeing.age = none
    ∧ aircraft_details_metadata uC2pubTimeout ServerState.initial ("abc123") now1
      = Except.ok (some metaAdsb,
          { detailsCache := [(("aircraft_details_") ++ ("abc123"), none, now1)]
            flightCache := [], airportCache := []
            metaCache := [(("abc123"), metaAdsb)] }, 3) := by
  refine ⟨?_, ?_, rfl, rfl, rfl, rfl, rfl, rfl, ?_⟩
  · simp [aircraft_details_metadata, get_cached_or_fetch, cacheLookup, cacheInsert,
      get_aircraft_metadata, fetch_aircraft_metadata_from_public_apis, uC2absent,
      uC2timeout, stC2, metaBoeing, hexBoeing, parse_hexdb, hasUsefulFields,
      ServerState.initial]
  · simp [aircraft_details_metadata, get_cached_or_fetch, cacheLookup, cacheInsert,
      get_aircraft_metadata, uC2absent, uC2timeout, stC2, hasUsefulFields, h]
  · simp [aircraft_details_metadata, get_cached_or_fetch, cacheLookup, cacheInsert,
      get_aircraft_metadata, fetch_aircraft_metadata_from_public_apis, uC2pubTimeout,
      acBoeing, metaAdsb, parse_adsbx, hasUsefulFields, ServerState.initial]

/-- Witness for C2 (amended) at instants 0 and 100. -/
theorem c2_fallback_chain_witness :
    aircraft_details_metadata uC2absent (stC2 0) ("abc123") 100
      = Except.ok (some metaBoeing, stC2 0, 0) :=
  (c2_fallback_chain_amended 0 100 (by decide)).2.1

/-- Counterexample to claim C4: a timing-out flight sub-fetch fails the
whole details assembly (the handler answers 500) even though the other
sections could have been assembled. -/
theorem c4_subfetch_error_counterexample :
    get_aircraft_details_response uC4bad ServerState.initial ("abc123") 0
      = Except.error () := rfl

/-- Claim C4 (amended): a sub-fetch that returns "absent" (upstream 404 /
no data) does not fail the assembly — the corresponding sections render as
null and partial data is returned — but a sub-fetch that raises fails the
whole request. -/
theorem c4_absent_renders_null_amended (now : Nat) :
    get_aircraft_details_response uC4absent ServerState.initial ("abc123") now
      = Except.ok ({ meta := none, route := none, position := none },
          { detailsCache := [(("aircraft_details_") ++ ("abc123"), none, now)]
            flightCache := [(("aircraft_flight_") ++ ("abc123"), none, now)]
            airportCache := [], metaCache := [] }, 4)
    ∧ get_aircraft_details_response uC4partial ServerState.initial ("abc123") now
      = Except.ok ({ meta := some metaOutA, route := none, position := none },
          { detailsCache := [(("aircraft_details_") ++ ("abc123"), some recA, now)]
            flightCache := [(("aircraft_flight_") ++ ("abc123"), none, now)]
            airportCache := [], metaCache := [] }, 2)
    ∧ get_aircraft_details_response uC4bad ServerState.initial ("abc123") now
      = Except.error () := by
  refine ⟨?_, ?_, ?_⟩ <;>
    simp [get_aircraft_details_response, aircraft_details_metadata,
      get_cached_or_fetch, cacheLookup, cacheInsert, get_aircraft_metadata,
      fetch_aircraft_metadata_from_public_apis, assemble_route, assemble_position,
      assemble_meta, uC4bad, uC4absent, uC4partial, recA, metaOutA,
      hasUsefulFields, optTruthy, pyTruthy, ServerState.initial]

/-- The geo filter expressed over the raw states list. -/
theorem process_opensky_states_eq {α : Type} [LinearOrderedField α] [FloorRing α]
    (T : TrigOps α) (sd : Option (StatesPayload α)) (clat clon radius : α) :
    process_opensky_states T sd clat clon radius =
      stableSortBy (fun a b => decide (a.distance ≤ b.distance))
        ((statesOf sd).filterMap (fun s =>
          match s.longitude, s.latitude with
          | some longitude, some latitude =>
            let distance := calculate_distance T clat clon latitude longitude
            if radius < distance then none
            else some (mkAircraftData s latitude longitude distance)
          | _, _ => none)) := by
  cases sd with
  | none => rfl
  | some sdv =>
    cases hs : sdv.states with
    | none => simp [process_opensky_states, statesOf, hs, stableSortBy]
    | some l =>
      cases l with
      | nil => simp [process_opensky_states, statesOf, hs, stableSortBy]
      | cons x xs => simp [process_opensky_states, statesOf, hs]

/-- Claim C5: every record kept by the geo filter comes from an input state
vector with non-null coordinates whose exact (unrounded) distance to the
centre is at most the radius; conversely every input record with non-null
coordinates and distance at most the radius — in particular one at exactly
the radius, since only `distance > radius` is dropped — appears in the
output; and when no record qualifies the result is the empty list, not an
error. -/
theorem c5_geo_filter {α : Type} [LinearOrderedField α] [FloorRing α]
    (T : TrigOps α) (sd : Option (StatesPayload α)) (clat clon radius : α) :
    (∀ a ∈ process_opensky_states T sd clat clon radius,
      ∃ s ∈ statesOf sd, s.latitude = some a.latitude
        ∧ s.longitude = some a.longitude
        ∧ calculate_distance T clat clon a.latitude a.longitude ≤ radius)
    ∧ (∀ s ∈ statesOf sd, ∀ la lo, s.latitude = some la → s.longitude = some lo →
        calculate_distance T clat clon la lo ≤ radius →
        mkAircraftData s la lo (calculate_distance T clat clon la lo)
          ∈ process_opensky_states T sd clat clon radius)
    ∧ ((∀ s ∈ statesOf sd, s.latitude = none ∨ s.longitude = none ∨
        (∀ la lo, s.latitude = some la → s.longitude = some lo →
          radius < calculate_distance T clat clon la lo)) →
      process_opensky_states T sd clat clon radius = []) := by
  refine ⟨?_, ?_, ?_⟩
  · intro a ha
    rw [process_opensky_states_eq, mem_stableSortBy, List.mem_filterMap] at ha
    obtain ⟨s, hsmem, hfs⟩ := ha
    refine ⟨s, hsmem, ?_⟩
    rcases hlo : s.longitude with _ | lo <;> rcases hla : s.latitude with _ | la <;>
      rw [hlo, hla] at hfs
    · simp at hfs
    · simp at hfs
    · simp at hfs
    · simp only at hfs
      split_ifs at hfs with hd
      obtain rfl := Option.some.inj hfs
      exact ⟨rfl, rfl, not_lt.mp hd⟩
  · intro s hs la lo hla hlo hle
    rw [process_opensky_states_eq, mem_stableSortBy, List.mem_filterMap]
    refine ⟨s, hs, ?_⟩
    rw [hlo, hla]
    simp only
    rw [if_neg (not_lt.mpr hle)]
  · intro hall
    rw [process_opensky_states_eq]
    have hnil : (statesOf sd).filterMap (fun s =>
        match s.longitude, s.latitude with
        | some longitude, some latitude =>
          let distance := calculate_distance T clat clon latitude longitude
          if radius < distance then none
          else some (mkAircraftData s latitude longitude distance)
        | _, _ => none) = [] := by
      rw [List.filterMap_eq_nil_iff]
      intro s hs
      rcases hall s hs with h | h | h
      · rcases hlo : s.longitude with _ | lo <;> simp [hlo, h]
      · rcases hla : s.latitude with _ | la <;> simp [hla, h]
      · rcases hlo : s.longitude with _ | lo <;> rcases hla : s.latitude with _ | la <;>
          simp [hlo, hla]
        exact h la lo hla hlo
    rw [hnil]
    rfl

/-- Distance computed by the stub arithmetic at the centre point. -/
theorem qTrig_distance_zero : calculate_distance qTrig 0 0 0 0 = 0 := by
  simp [calculate_distance, mathRadians, qTrig]

/-- The radius-5 query around the origin keeps exactly the example record. -/
theorem process_sdEx_eq :
    process_opensky_states qTrig sdEx 0 0 5
      = [mkAircraftData stateVecEx 0 0 (calculate_distance qTrig 0 0 0 0)] := by
  rw [process_opensky_states_eq]
  have hstates : statesOf sdEx = [stateVecEx] := rfl
  rw [hstates]
  rw [List.filterMap_cons]
  have hlon : stateVecEx.longitude = some 0 := rfl
  have hlat : stateVecEx.latitude = some 0 := rfl
  simp only [hlon, hlat]
  rw [if_neg (by rw [qTrig_distance_zero]; norm_num)]
  rfl

/-- Distance computed by the boundary stub arithmetic: exactly 5. -/
theorem qTrigBoundary_distance_five :
    calculate_distance qTrigBoundary 0 0 0 0 = 5 := by
  simp [calculate_distance, mathRadians, qTrigBoundary]
  norm_num

/-- Witness for C5: a state vector at exactly the radius (distance 5 of a
radius-5 query) is included in the output, and it pulls back to its input
record. -/
theorem c5_geo_filter_witness :
    calculate_distance qTrigBoundary 0 0 0 0 = 5
    ∧ mkAircraftData stateVecEx 0 0 (calculate_distance qTrigBoundary 0 0 0 0)
        ∈ process_opensky_states qTrigBoundary sdEx 0 0 5
    ∧ ∃ s ∈ statesOf sdEx,
        s.latitude = some ((mkAircraftData stateVecEx 0 0
            (calculate_distance qTrigBoundary 0 0 0 0)).latitude)
        ∧ s.longitude = some ((mkAircraftData stateVecEx 0 0
            (calculate_distance qTrigBoundary 0 0 0 0)).longitude)
        ∧ calculate_distance qTrigBoundary 0 0
            ((mkAircraftData stateVecEx 0 0
              (calculate_distance qTrigBoundary 0 0 0 0)).latitude)
            ((mkAircraftData stateVecEx 0 0
              (calculate_distance qTrigBoundary 0 0 0 0)).longitude)
          ≤ 5 := by
  have hmem : mkAircraftData stateVecEx 0 0 (calculate_distance qTrigBoundary 0 0 0 0)
      ∈ process_opensky_states qTrigBoundary sdEx 0 0 5 :=
    (c5_geo_filter qTrigBoundary sdEx 0 0 5).2.1 stateVecEx
      (List.mem_singleton.mpr rfl) 0 0 rfl rfl (le_of_eq qTrigBoundary_distance_five)
  exact ⟨qTrigBoundary_distance_five, hmem,
    (c5_geo_filter qTrigBoundary sdEx 0 0 5).1
      (mkAircraftData stateVecEx 0 0 (calculate_distance qTrigBoundary 0 0 0 0)) hmem⟩

/-- Claim C10: a state vector whose altitude, velocity or vertical-rate
field is exactly 0 produces a record with that field null (the truthiness
guard conflates 0 with missing), and an empty or absent callsign is
reported as null. -/
theorem c10_zero_treated_as_missing {α : Type} [LinearOrderedField α]
    [FloorRing α] (s : StateVec α) (lat lon d : α) :
    (s.baroAltitude = some 0 → (mkAircraftData s lat lon d).altitude = none)
    ∧ (s.velocity = some 0 → (mkAircraftData s lat lon d).speed = none)
    ∧ (s.verticalRate = some 0 → (mkAircraftData s lat lon d).verticalRate = none)
    ∧ (s.callsign = some ("") → (mkAircraftData s lat lon d).callsign = none)
    ∧ (s.callsign = none → (mkAircraftData s lat lon d).callsign = none) := by
  refine ⟨fun h => ?_, fun h => ?_, fun h => ?_, fun h => ?_, fun h => ?_⟩ <;>
    simp [mkAircraftData, convertIfTruthy, normalizeCallsign, h]

/-- Witness for C10 on a concrete all-zero state vector. -/
theorem c10_zero_treated_as_missing_witness :
    (mkAircraftData stateVecZero 0 0 0).altitude = none
    ∧ (mkAircraftData stateVecZero 0 0 0).speed = none
    ∧ (mkAircraftData stateVecZero 0 0 0).verticalRate = none
    ∧ (mkAircraftData stateVecZero 0 0 0).callsign = none :=
  ⟨(c10_zero_treated_as_missing stateVecZero 0 0 0).1 rfl,
   (c10_zero_treated_as_missing stateVecZero 0 0 0).2.1 rfl,
   (c10_zero_treated_as_missing stateVecZero 0 0 0).2.2.1 rfl,
   (c10_zero_treated_as_missing stateVecZero 0 0 0).2.2.2.1 rfl⟩

/-- Counterexample to claim C9: with a 26-character callsign and a short
registration, line 1 of the formatted payload is 31 characters long — the
individual fields are truncated to 22 characters but the composed line is
not, so the text does not satisfy "each line at most 22 characters". -/
theorem c9_line_length_counterexample :
    22 < (List.getD (format_flight_notification_lines c9Rec) 0 ("")).length := by
  decide

/-- Claim C9 (amended): the formatter always emits exactly 6 lines; each
individual textual field is truncated to at most 22 characters before
composition (so line 3 is at most 22 characters, lines 1 and 2 at most
22+3+22 and 22+2+22); missing altitude, speed and heading render as `N/A`;
the 6-by-22 bound itself is enforced by the display encoding, which always
produces exactly 6 rows of exactly 22 character codes. -/
theorem c9_format_payload_amended (r : VbAircraft)
    (hAlt : r.altitude = none) (hPos : r.position = none)
    (hSpeed : r.speed = none) (hHead : r.heading = none) :
    (format_flight_notification_lines r).length = 6
    ∧ (List.getD (format_flight_notification_lines r) 0 ("")).length ≤ 47
    ∧ (List.getD (format_flight_notification_lines r) 1 ("")).length ≤ 46
    ∧ (List.getD (format_flight_notification_lines r) 2 ("")).length ≤ 22
    ∧ List.getD (format_flight_notification_lines r) 3 ("") = ("N/A")
    ∧ List.getD (format_flight_notification_lines r) 4 ("") = ("N/A")
    ∧ List.getD (format_flight_notification_lines r) 5 ("") = ("N/A")
    ∧ (text_to_character_codes (format_flight_notification r)).length = 6
    ∧ ∀ row ∈ text_to_character_codes (format_flight_notification r),
        row.length = 22 := by
  obtain ⟨hshape1, hshape2⟩ :=
    text_to_character_codes_shape (format_flight_notification r)
  have hah : vb_altitude_heading r = (0, 0) := by
    simp [vb_altitude_heading, hAlt, hPos, hHead, pyTruthy]
  refine ⟨rfl, ?_, ?_, ?_, ?_, ?_, ?_, hshape1, hshape2⟩
  · have h1 := pyTrunc22_length_le (vb_callsign r)
    have h2 := pyTrunc22_length_le (r.registration.getD (""))
    simp only [format_flight_notification_lines, List.getD]
    simp only [List.get?_cons_zero, Option.getD_some, String.length_append]
    have h3 : ("   ").length = 3 := rfl
    omega
  · have h1 := pyTrunc22_length_le (vb_owner_operator r)
    have h2 := pyTrunc22_length_le (r.country.getD (""))
    simp only [format_flight_notification_lines, List.getD]
    simp only [List.get?_cons_succ, List.get?_cons_zero, Option.getD_some,
      String.length_append]
    have h3 : ("  ").length = 2 := rfl
    omega
  · have h1 := pyTrunc22_length_le (vb_aircraft_type r)
    simp only [format_flight_notification_lines, List.getD]
    simp only [List.get?_cons_succ, List.get?_cons_zero, Option.getD_some]
    exact h1
  · simp only [format_flight_notification_lines, List.getD]
    simp only [List.get?_cons_succ, List.get?_cons_zero, Option.getD_some]
    simp [vb_alt_str, hah]
  · simp only [format_flight_notification_lines, List.getD]
    simp only [List.get?_cons_succ, List.get?_cons_zero, Option.getD_some]
    simp [vb_speed_str, vb_speed, hSpeed]
  · simp only [format_flight_notification_lines, List.getD]
    simp only [List.get?_cons_succ, List.get?_cons_zero, Option.getD_some]
    simp [vb_heading_str, hah]

/-- Witness for C9 (amended) on the all-absent record: the altitude line is
`N/A`. -/
theorem c9_format_payload_witness :
    List.getD (format_flight_notification_lines vbNoneRec) 3 ("") = ("N/A") :=
  (c9_format_payload_amended vbNoneRec rfl rfl rfl rfl).2.2.2.2.1

/-- Claim C6 is falsified by the code (code bug): the bounding box uses
111.32 km per degree of latitude, but a degree of latitude under the
haversine model (Earth radius 6371 km) spans only 6371·π/180 ≈ 111.195 km,
so the box is slightly smaller than the circle.  Concretely, for centre
(0, 0) and radius 100 km, the point at latitude 100/111.2 degrees and
longitude 0 has haversine distance ≈ 99.995 km ≤ 100 — the exact-distance
check keeps it — yet it lies outside the computed bounding box, so the
pre-filter excludes it. -/
theorem c6_bbox_not_superset :
    calculate_distance realTrig 0 0 (100 / 111.2) 0 ≤ 100
    ∧ ¬ inBoundingBox (fetch_opensky_bbox realTrig 0 0 100) (100 / 111.2) 0 := by
  constructor
  · have hπ := Real.pi_pos
    set φ : ℝ := 100 / 111.2 with hφ
    have hφpos : (0:ℝ) < φ := by rw [hφ]; norm_num
    have hφlt : φ < 180 := by rw [hφ]; norm_num
    set x : ℝ := φ * Real.pi / 180 / 2 with hx
    have hx0 : 0 < x := by rw [hx]; positivity
    have hxlt : x < Real.pi / 2 := by
      rw [hx]
      calc φ * Real.pi / 180 / 2 = φ * (Real.pi / 360) := by ring
      _ < 180 * (Real.pi / 360) := mul_lt_mul_of_pos_right hφlt (by positivity)
      _ = Real.pi / 2 := by ring
    have hsin : 0 < Real.sin x := Real.sin_pos_of_pos_of_lt_pi hx0 (by linarith)
    have hcos : 0 < Real.cos x := Real.cos_pos_of_mem_Ioo ⟨by linarith, hxlt⟩
    have hdist : calculate_distance realTrig 0 0 φ 0 = 6371 * (2 * x) := by
      unfold calculate_distance mathRadians realTrig
      simp only
      have h0 : (0:ℝ) * Real.pi / 180 = 0 := by ring
      rw [h0]
      have hxargs : (φ * Real.pi / 180 - 0) / 2 = x := by rw [hx]; ring
      rw [sub_self, zero_div, Real.sin_zero, Real.cos_zero, hxargs]
      norm_num
      rw [Real.sqrt_sq hsin.le]
      have h1s : 1 - Real.sin x ^ 2 = Real.cos x ^ 2 := by
        have := Real.sin_sq_add_cos_sq x
        linarith
      rw [h1s, Real.sqrt_sq hcos.le]
      unfold realAtan2
      rw [if_pos hcos, ← Real.tan_eq_sin_div_cos,
        Real.arctan_tan (by linarith) hxlt]
    rw [hdist, hx, hφ]
    have hπlt : Real.pi < 3.141593 := Real.pi_lt_d6
    nlinarith [hπlt, hπ]
  · intro h
    simp only [fetch_opensky_bbox, inBoundingBox] at h
    have h2 := h.2.1
    norm_num at h2

/-- Witness for C4 (amended) at instant 7: the all-absent world assembles an
all-null response instead of failing. -/
theorem c4_absent_renders_null_witness :
    get_aircraft_details_response uC4absent ServerState.initial ("abc123") 7
      = Except.ok ({ meta := none, route := none, position := none },
          { detailsCache := [(("aircraft_details_") ++ ("abc123"), none, 7)]
            flightCache := [(("aircraft_flight_") ++ ("abc123"), none, 7)]
            airportCache := [], metaCache := [] }, 4) :=
  (c4_absent_renders_null_amended 7).1
